import Mathlib

/-!
Verification of the Excel-to-PPT vocabulary tool (主程序.py).

We give a shallow embedding of the data-handling core of the program:
the text wrapper `process_text`, the spreadsheet loaders `load_data` /
`load_data_from_sheet`, the per-record slide builder `generate_slide`, and
the two deck-building entry points `generate_ppt` / `generate_ppt_from_sheet`.

Modelling conventions:
* A worksheet cell value is `Option String`: `none` models a Python `None`
  (empty cell), `some s` models a value whose `str()` representation is `s`.
* A Python dict built by repeated assignment is modelled as an association
  list in insertion order; lookup (`recGet`) returns the value of the LAST
  matching entry, matching dict-overwrite semantics.
* Lengths (`Inches`) are exact rationals measured in inches; font sizes
  (`Pt`) are naturals measured in points.
* A `python-pptx` presentation is a list of slides; a slide is the list of
  text boxes added to it, in insertion order.
* openpyxl's `iter_rows(values_only=True)` yields tuples padded to the
  sheet's column count, so every data row has the same length as the header
  row; theorems that need this state it as the hypothesis `RowsFull`.
* I/O boundaries are made explicit: a `saveOk : Bool` parameter models
  whether serialization to the output path succeeds, and the results of the
  entry points are small inductives recording what was written and returned
  (`sys.exit(1)` and an uncaught exception are error constructors).
-/

namespace VocabPPT

/-- A worksheet cell value: `none` is Python `None`, `some s` a value whose
string representation is `s`. -/
abbrev Cell := Option String

/-- `str(value) if value is not None else ''` from the loaders. -/
def cellToStr : Cell → String
  | Option.none => ""
  | some s => s

/-- The `REQUIRED_COLUMNS` dict of 主程序.py (key → record field name),
in insertion order. -/
def REQUIRED_COLUMNS : List (String × String) :=
  [("英文单词", "word"), ("英文音标", "phonetic"), ("词根词缀", "morphology"),
   ("例句", "example"), ("例句释义", "example_def"), ("单词释义", "word_def")]

/-- Iterating a Python dict yields its keys in insertion order. -/
def requiredKeys : List String := REQUIRED_COLUMNS.map Prod.fst

/-- `TEXT_WRAP_THRESHOLD = 40`. -/
def TEXT_WRAP_THRESHOLD : Nat := 40

/-- Fuel-indexed chunking: `[text[i:i+t] for i in range(0, len(text), t)]`.
With fuel ≥ the list length and `t ≥ 1` every step consumes at least one
character, so the fuel never runs out. -/
def chunkFuel : Nat → Nat → List Char → List (List Char)
  | 0, _, _ => []
  | _ + 1, _, [] => []
  | fuel + 1, t, c :: cs => (c :: cs).take t :: chunkFuel fuel t ((c :: cs).drop t)

/-- The chunk list `lines` built by `process_text` for a string that exceeds
the threshold. -/
def pyChunks (t : Nat) (s : String) : List String :=
  (chunkFuel s.data.length t s.data).map String.mk

/-- The join separator `'\n                  '`: a newline followed by
18 spaces. -/
def WRAP_INDENT : String := "\n                  "

/-- `process_text(text, threshold=TEXT_WRAP_THRESHOLD)`. -/
def process_text (text : String) (threshold : Nat := TEXT_WRAP_THRESHOLD) : String :=
  if text.length ≤ threshold then text
  else String.intercalate WRAP_INDENT (pyChunks threshold text)

/-- A record: the `row_dict` association, keyed by header cell values, in
insertion order. -/
abbrev Record := List (Cell × String)

/-- Python dict lookup on the association list: the value of the last entry
whose key matches wins (later assignments overwrite earlier ones);
`Option.none` result models a `KeyError`. -/
def recGet : Record → Cell → Option String
  | [], _ => Option.none
  | (k, v) :: rest, key =>
    match recGet rest key with
    | some w => some w
    | Option.none => if k = key then some v else Option.none

/-- `row_dict[headers[i]] = str(value) if value is not None else ''` for
`i < len(headers)`, iterating over the row. -/
def mk_row_dict (headers : List Cell) (row : List Cell) : Record :=
  (headers.zip row).map (fun p => (p.1, cellToStr p.2))

/-- An in-memory worksheet: the header row (`ws[1]`) and the data rows
(`iter_rows(min_row=2, values_only=True)`), as cell values. -/
structure Sheet where
  headerRow : List Cell
  dataRows : List (List Cell)

/-- The openpyxl invariant: `values_only` rows are padded to the sheet's
column count, hence have the same length as the header row. -/
def RowsFull (sheet : Sheet) : Prop :=
  ∀ r ∈ sheet.dataRows, r.length = sheet.headerRow.length

instance (sheet : Sheet) : Decidable (RowsFull sheet) := by
  unfold RowsFull; infer_instance

/-- `[col for col in REQUIRED_COLUMNS if col not in headers]`. -/
def missingColumns (headers : List Cell) : List String :=
  requiredKeys.filter (fun col => decide ((some col) ∉ headers))

/-- `load_data`: validates the header row, then materializes one record per
data row.  `Except.error missing` models the printed message plus
`sys.exit(1)`. -/
def load_data (sheet : Sheet) : Except (List String) (List Record) :=
  let missing := missingColumns sheet.headerRow
  if missing = [] then
    Except.ok (sheet.dataRows.map (mk_row_dict sheet.headerRow))
  else
    Except.error missing

/-- `load_data_from_sheet`: identical validation and row materialization;
the error is a raised exception rather than a process exit. -/
def load_data_from_sheet (sheet : Sheet) : Except (List String) (List Record) :=
  let missing := missingColumns sheet.headerRow
  if missing = [] then
    Except.ok (sheet.dataRows.map (mk_row_dict sheet.headerRow))
  else
    Except.error missing

/-- `PP_PARAGRAPH_ALIGNMENT` values used by the program. -/
inductive Alignment
  | center
  | left
deriving DecidableEq

/-- `MSO_AUTO_SIZE` values used by the program. -/
inductive AutoSize
  | textToFitShape
  | shapeToFitText
deriving DecidableEq

/-- One text box added to a slide: rectangle in inches, font size in points,
paragraph alignment, auto-size policy, word-wrap flag, and the paragraph
text. -/
structure TextBox where
  boxLeft : Rat
  boxTop : Rat
  boxWidth : Rat
  boxHeight : Rat
  fontSize : Nat
  alignment : Alignment
  autoSize : AutoSize
  wordWrap : Bool
  text : String
deriving DecidableEq

def WORD_FONT_SIZE : Nat := 72
def PHONETIC_FONT_SIZE : Nat := 32
def CONTENT_FONT_SIZE : Nat := 32

/-- `add_word_textbox`. -/
def add_word_textbox (l t w h : Rat) (word : String) : TextBox :=
  { boxLeft := l, boxTop := t, boxWidth := w, boxHeight := h,
    fontSize := WORD_FONT_SIZE, alignment := Alignment.center,
    autoSize := AutoSize.textToFitShape, wordWrap := false, text := word }

/-- `add_phonetic_textbox` (its `str(phonetic)` is the identity here: record
values are already strings). -/
def add_phonetic_textbox (l t w h : Rat) (phonetic : String) : TextBox :=
  { boxLeft := l, boxTop := t, boxWidth := w, boxHeight := h,
    fontSize := PHONETIC_FONT_SIZE, alignment := Alignment.center,
    autoSize := AutoSize.textToFitShape, wordWrap := false, text := phonetic }

/-- `add_morphology_textbox`: label `"词根词缀："` prepended to the wrapped
field. -/
def add_morphology_textbox (l t w h : Rat) (morphology : String) : TextBox :=
  { boxLeft := l, boxTop := t, boxWidth := w, boxHeight := h,
    fontSize := CONTENT_FONT_SIZE, alignment := Alignment.left,
    autoSize := AutoSize.textToFitShape, wordWrap := true,
    text := "词根词缀：" ++ process_text morphology }

/-- `add_example_textbox`: the two sub-fields are wrapped independently and
joined as two labeled lines. -/
def add_example_textbox (l t w h : Rat) (exampleField example_def : String) : TextBox :=
  { boxLeft := l, boxTop := t, boxWidth := w, boxHeight := h,
    fontSize := CONTENT_FONT_SIZE, alignment := Alignment.left,
    autoSize := AutoSize.textToFitShape, wordWrap := true,
    text := "例句：" ++ process_text exampleField ++ "\n例句释义：" ++ process_text example_def }

/-- `add_word_def_textbox`: the only box using `SHAPE_TO_FIT_TEXT`. -/
def add_word_def_textbox (l t w h : Rat) (word_def : String) : TextBox :=
  { boxLeft := l, boxTop := t, boxWidth := w, boxHeight := h,
    fontSize := CONTENT_FONT_SIZE, alignment := Alignment.left,
    autoSize := AutoSize.shapeToFitText, wordWrap := false,
    text := "单词释义：" ++ process_text word_def }

/-- A slide: its text boxes in insertion order. -/
abbrev Slide := List TextBox

/-- `generate_slide`: the six dict accesses in program order (a missing key
is a `KeyError`, yielding `Option.none`), then the five boxes, the
definition box only when the field is truthy (non-empty). -/
def generate_slide (row : Record) : Option Slide := do
  let word ← recGet row (some "英文单词")
  let phonetic ← recGet row (some "英文音标")
  let morphology ← recGet row (some "词根词缀")
  let exampleField ← recGet row (some "例句")
  let example_def ← recGet row (some "例句释义")
  let word_def ← recGet row (some "单词释义")
  let word_left : Rat := 4
  let word_top : Rat := 1
  let base : Slide :=
    [ add_word_textbox word_left word_top 8 2 word,
      add_phonetic_textbox (word_left + 3) (word_top + 1.4) 2 1 phonetic,
      add_morphology_textbox 2 (word_top + 3) 12 2 morphology,
      add_example_textbox 2 (word_top + 4.4) 12 3 exampleField example_def ]
  if word_def ≠ "" then
    pure (base ++ [add_word_def_textbox 2 (word_top + 2) 8 1.5 word_def])
  else
    pure base

/-- The deck-building loop of both entry points: one slide per record, in
record order; a `KeyError` (`Option.none`) aborts the whole build. -/
def buildDeck : List Record → Option (List Slide)
  | [] => some []
  | r :: rest =>
    match generate_slide r, buildDeck rest with
    | some s, some deck => some (s :: deck)
    | _, _ => Option.none

/-- Observable outcome of `generate_ppt` (batch entry point):
`loadFailure` is the printed message plus `sys.exit(1)`; `keyError` an
uncaught dict `KeyError`; `finished saved n` a normal return of `n` with
`saved` the deck written to the output path (`Option.none` when `ppt.save`
raised and nothing was written — the function catches it and returns 0). -/
inductive BatchResult
  | loadFailure (missing : List String)
  | keyError
  | finished (saved : Option (List Slide)) (returnValue : Nat)
deriving DecidableEq

/-- The deck written to the output path by a batch run, if any. -/
def BatchResult.savedDeck : BatchResult → Option (List Slide)
  | BatchResult.finished saved _ => saved
  | _ => Option.none

/-- The value returned by a batch run, if it returned at all. -/
def BatchResult.retVal : BatchResult → Option Nat
  | BatchResult.finished _ n => some n
  | _ => Option.none

/-- `generate_ppt(input, output)`: load, build one slide per record, then
save; on save failure it catches the exception and returns 0. -/
def generate_ppt (saveOk : Bool) (sheet : Sheet) : BatchResult :=
  match load_data sheet with
  | Except.error missing => BatchResult.loadFailure missing
  | Except.ok data =>
    match buildDeck data with
    | Option.none => BatchResult.keyError
    | some deck =>
      if saveOk then BatchResult.finished (some deck) data.length
      else BatchResult.finished Option.none 0

/-- Observable outcome of `generate_ppt_from_sheet` (GUI entry point): on
save failure it RAISES (`saveError`) instead of returning. -/
inductive SheetResult
  | loadFailure (missing : List String)
  | keyError
  | saveError
  | finished (saved : List Slide) (returnValue : Nat)
deriving DecidableEq

/-- `generate_ppt_from_sheet(input, output, sheet_name)`. -/
def generate_ppt_from_sheet (saveOk : Bool) (sheet : Sheet) : SheetResult :=
  match load_data_from_sheet sheet with
  | Except.error missing => SheetResult.loadFailure missing
  | Except.ok data =>
    match buildDeck data with
    | Option.none => SheetResult.keyError
    | some deck =>
      if saveOk then SheetResult.finished deck data.length
      else SheetResult.saveError

/-! ## Helper lemmas about the text wrapper -/

theorem chunkFuel_nil (fuel t : Nat) : chunkFuel fuel t [] = [] := by
  cases fuel <;> rfl

theorem chunkFuel_flatten (t : Nat) (ht : 0 < t) :
    ∀ (fuel : Nat) (l : List Char), l.length ≤ fuel → (chunkFuel fuel t l).flatten = l := by
  intro fuel
  induction fuel with
  | zero =>
    intro l hl
    have hnil : l = [] := List.length_eq_zero.mp (Nat.le_zero.mp hl)
    subst hnil; rfl
  | succ n ih =>
    intro l hl
    cases l with
    | nil => rfl
    | cons c cs =>
      show ((c :: cs).take t :: chunkFuel n t ((c :: cs).drop t)).flatten = c :: cs
      rw [List.flatten_cons,
        ih ((c :: cs).drop t) (by rw [List.length_drop]; omega),
        List.take_append_drop]

theorem chunkFuel_dropLast (t : Nat) (ht : 0 < t) :
    ∀ (fuel : Nat) (l : List Char), l.length ≤ fuel →
      ∀ c ∈ (chunkFuel fuel t l).dropLast, c.length = t := by
  intro fuel
  induction fuel with
  | zero =>
    intro l hl c hc
    have hnil : l = [] := List.length_eq_zero.mp (Nat.le_zero.mp hl)
    subst hnil; simp [chunkFuel] at hc
  | succ n ih =>
    intro l hl c hc
    cases l with
    | nil => simp [chunkFuel] at hc
    | cons a as =>
      rw [show chunkFuel (n + 1) t (a :: as)
            = (a :: as).take t :: chunkFuel n t ((a :: as).drop t) from rfl] at hc
      cases hrest : chunkFuel n t ((a :: as).drop t) with
      | nil => rw [hrest] at hc; simp at hc
      | cons b bs =>
        rw [hrest, List.dropLast_cons₂] at hc
        rcases List.mem_cons.mp hc with h | h
        · have hd : (a :: as).drop t ≠ [] := by
            intro hnil
            rw [hnil, chunkFuel_nil] at hrest
            exact (List.cons_ne_nil b bs) hrest.symm
          have hlt : t < (a :: as).length := by
            by_contra hnot
            push_neg at hnot
            exact hd (List.drop_eq_nil_of_le hnot)
          subst h
          rw [List.length_take]
          omega
        · exact ih ((a :: as).drop t) (by rw [List.length_drop]; omega) c
            (by rw [hrest]; exact h)

theorem chunkFuel_getLast (t : Nat) (ht : 0 < t) :
    ∀ (fuel : Nat) (l c : List Char), l.length ≤ fuel →
      (chunkFuel fuel t l).getLast? = some c → 0 < c.length ∧ c.length ≤ t := by
  intro fuel
  induction fuel with
  | zero =>
    intro l c hl hlast
    have hnil : l = [] := List.length_eq_zero.mp (Nat.le_zero.mp hl)
    subst hnil; simp [chunkFuel] at hlast
  | succ n ih =>
    intro l c hl hlast
    cases l with
    | nil => simp [chunkFuel] at hlast
    | cons a as =>
      rw [show chunkFuel (n + 1) t (a :: as)
            = (a :: as).take t :: chunkFuel n t ((a :: as).drop t) from rfl] at hlast
      cases hrest : chunkFuel n t ((a :: as).drop t) with
      | nil =>
        rw [hrest] at hlast
        simp only [List.getLast?_singleton, Option.some.injEq] at hlast
        subst hlast
        rw [List.length_take]
        constructor
        · simp only [lt_inf_iff]
          exact ⟨ht, by simp⟩
        · exact inf_le_left
      | cons b bs =>
        rw [hrest, List.getLast?_cons_cons] at hlast
        exact ih ((a :: as).drop t) c (by rw [List.length_drop]; omega)
          (by rw [hrest]; exact hlast)

theorem foldl_app_init (l : List String) : ∀ a : String,
    l.foldl (fun r s => r ++ s) a = a ++ l.foldl (fun r s => r ++ s) "" := by
  induction l with
  | nil => intro a; simp
  | cons b l ih =>
    intro a
    simp only [List.foldl_cons]
    rw [ih (a ++ b), ih ("" ++ b), String.empty_append, String.append_assoc]

theorem stringJoin_cons (s : String) (l : List String) :
    String.join (s :: l) = s ++ String.join l := by
  simp only [String.join, List.foldl_cons]
  rw [foldl_app_init l ("" ++ s), String.empty_append]

theorem stringJoin_map_mk (ls : List (List Char)) :
    String.join (ls.map String.mk) = String.mk ls.flatten := by
  induction ls with
  | nil => rfl
  | cons a ls ih =>
    rw [List.map_cons, stringJoin_cons, ih, List.flatten_cons]
    rfl

theorem pyChunks_join (t : Nat) (ht : 0 < t) (s : String) :
    String.join (pyChunks t s) = s := by
  unfold pyChunks
  rw [stringJoin_map_mk, chunkFuel_flatten t ht s.data.length s.data (le_refl _)]

theorem pyChunks_dropLast_length (t : Nat) (ht : 0 < t) (s : String) :
    ∀ c ∈ (pyChunks t s).dropLast, c.length = t := by
  intro c hc
  unfold pyChunks at hc
  rw [← List.map_dropLast] at hc
  rcases List.mem_map.mp hc with ⟨l, hl, rfl⟩
  exact chunkFuel_dropLast t ht s.data.length s.data (le_refl _) l hl

theorem pyChunks_getLast (t : Nat) (ht : 0 < t) (s : String) (c : String)
    (h : (pyChunks t s).getLast? = some c) : 0 < c.length ∧ c.length ≤ t := by
  unfold pyChunks at h
  rw [List.getLast?_map] at h
  rcases Option.map_eq_some'.mp h with ⟨l, hl, rfl⟩
  exact chunkFuel_getLast t ht s.data.length s.data l (le_refl _) hl

/-! ## Claims C3 and C4: the text wrapper -/

/-- C3: for every string strictly longer than the (positive) threshold, the
wrapper splits it into consecutive chunks of exactly `threshold` characters
(only the last chunk may be shorter, and it is non-empty) joined by a newline
plus 18 spaces, and concatenating the chunks reconstructs the original string
exactly. -/
theorem process_text_wrap_spec (s : String) (t : Nat) (ht : 0 < t) (h : t < s.length) :
    process_text s t = String.intercalate WRAP_INDENT (pyChunks t s)
    ∧ WRAP_INDENT = "\n" ++ String.mk (List.replicate 18 ' ')
    ∧ (∀ c ∈ (pyChunks t s).dropLast, c.length = t)
    ∧ (∀ c, (pyChunks t s).getLast? = some c → 0 < c.length ∧ c.length ≤ t)
    ∧ String.join (pyChunks t s) = s := by
  refine ⟨?_, by decide, pyChunks_dropLast_length t ht s,
    fun c => pyChunks_getLast t ht s c, pyChunks_join t ht s⟩
  unfold process_text
  rw [if_neg (by omega)]

/-- Witness for C3 at a concrete 45-character string and threshold 40. -/
theorem process_text_wrap_spec_witness :
    (0 < 40 ∧ 40 < "abcdefghij0123456789abcdefghij0123456789abcde".length)
    ∧ (process_text "abcdefghij0123456789abcdefghij0123456789abcde" 40
        = String.intercalate WRAP_INDENT
            (pyChunks 40 "abcdefghij0123456789abcdefghij0123456789abcde")
      ∧ WRAP_INDENT = "\n" ++ String.mk (List.replicate 18 ' ')
      ∧ (∀ c ∈ (pyChunks 40 "abcdefghij0123456789abcdefghij0123456789abcde").dropLast,
          c.length = 40)
      ∧ (∀ c, (pyChunks 40 "abcdefghij0123456789abcdefghij0123456789abcde").getLast?
            = some c → 0 < c.length ∧ c.length ≤ 40)
      ∧ String.join (pyChunks 40 "abcdefghij0123456789abcdefghij0123456789abcde")
          = "abcdefghij0123456789abcdefghij0123456789abcde") :=
  ⟨⟨by decide, by decide⟩,
    process_text_wrap_spec "abcdefghij0123456789abcdefghij0123456789abcde" 40
      (by decide) (by decide)⟩

/-- C4: for every string whose character length is at most the threshold, the
wrapper returns the string unchanged. -/
theorem process_text_short_unchanged (s : String) (t : Nat) (h : s.length ≤ t) :
    process_text s t = s := by
  unfold process_text
  rw [if_pos h]

/-- Witness for C4 at the concrete string `"hello"` and the default
threshold 40. -/
theorem process_text_short_unchanged_witness :
    "hello".length ≤ 40 ∧ process_text "hello" 40 = "hello" :=
  ⟨by decide, process_text_short_unchanged "hello" 40 (by decide)⟩

/-! ## Helper lemmas about records and slides -/

theorem recGet_isSome_of_mem : ∀ (r : Record) (key : Cell), key ∈ r.map Prod.fst →
    (recGet r key).isSome := by
  intro r
  induction r with
  | nil => intro key h; simp at h
  | cons q rest ih =>
    intro key h
    obtain ⟨k, v⟩ := q
    rw [List.map_cons, List.mem_cons] at h
    unfold recGet
    cases hr : recGet rest key with
    | some w => simp
    | none =>
      rcases h with h | h
      · simp [h]
      · have hs := ih key h
        rw [hr] at hs
        simp at hs

theorem recGet_eq_none_of_not_mem : ∀ (r : Record) (key : Cell),
    key ∉ r.map Prod.fst → recGet r key = Option.none := by
  intro r
  induction r with
  | nil => intro key _; rfl
  | cons q rest ih =>
    intro key h
    obtain ⟨k, v⟩ := q
    rw [List.map_cons, List.mem_cons] at h
    push_neg at h
    unfold recGet
    rw [ih key h.2]
    exact if_neg (fun hk => h.1 hk.symm)

theorem mk_row_dict_keys (headers row : List Cell) (h : row.length = headers.length) :
    (mk_row_dict headers row).map Prod.fst = headers := by
  unfold mk_row_dict
  rw [List.map_map]
  have hcomp : (Prod.fst ∘ fun p : Cell × Cell => (p.1, cellToStr p.2)) = Prod.fst := rfl
  rw [hcomp]
  exact List.map_fst_zip headers row (le_of_eq h.symm)

/-- Python dict lookup on the zipped record: with duplicate-free headers,
the value stored under the i-th header is the string coercion of the i-th
cell of the row. -/
theorem mk_row_dict_get : ∀ (headers row : List Cell), headers.Nodup →
    ∀ i (hi : i < headers.length) (hi' : i < row.length),
      recGet (mk_row_dict headers row) (headers.get ⟨i, hi⟩)
        = some (cellToStr (row.get ⟨i, hi'⟩)) := by
  intro headers
  induction headers with
  | nil => intro row _ i hi; simp at hi
  | cons h hs ih =>
    intro row hnodup i hi hi'
    cases row with
    | nil => simp at hi'
    | cons r rs =>
      have hmk : mk_row_dict (h :: hs) (r :: rs)
          = (h, cellToStr r) :: mk_row_dict hs rs := rfl
      cases i with
      | zero =>
        have hnotin : h ∉ (mk_row_dict hs rs).map Prod.fst := by
          intro hmem
          unfold mk_row_dict at hmem
          rw [List.map_map] at hmem
          rcases List.mem_map.mp hmem with ⟨q, hq, hfst⟩
          have hq1 : q.1 = h := hfst
          have hmem1 : q.1 ∈ hs := (List.of_mem_zip hq).1
          rw [hq1] at hmem1
          exact (List.nodup_cons.mp hnodup).1 hmem1
        rw [hmk]
        show recGet ((h, cellToStr r) :: mk_row_dict hs rs) h = some (cellToStr r)
        unfold recGet
        rw [recGet_eq_none_of_not_mem _ _ hnotin, if_pos rfl]
      | succ n =>
        rw [hmk]
        have hn : n < hs.length := Nat.lt_of_succ_lt_succ hi
        have hn' : n < rs.length := Nat.lt_of_succ_lt_succ hi'
        have hrec := ih rs (List.nodup_cons.mp hnodup).2 n hn hn'
        show recGet ((h, cellToStr r) :: mk_row_dict hs rs) (hs.get ⟨n, hn⟩)
          = some (cellToStr (rs.get ⟨n, hn'⟩))
        unfold recGet
        rw [hrec]

/-- The slide shape asserted by the spec's layout table: five regions with
literal rectangles in inches, font sizes in points, alignments, auto-size
policies, and label-prefixed wrapped texts; the definition region only when
its field is non-empty. -/
def specGeometrySlide (w p m e ed wd : String) : Slide :=
  [ { boxLeft := 4, boxTop := 1, boxWidth := 8, boxHeight := 2,
      fontSize := 72, alignment := Alignment.center,
      autoSize := AutoSize.textToFitShape, wordWrap := false, text := w },
    { boxLeft := 7, boxTop := 2.4, boxWidth := 2, boxHeight := 1,
      fontSize := 32, alignment := Alignment.center,
      autoSize := AutoSize.textToFitShape, wordWrap := false, text := p },
    { boxLeft := 2, boxTop := 4, boxWidth := 12, boxHeight := 2,
      fontSize := 32, alignment := Alignment.left,
      autoSize := AutoSize.textToFitShape, wordWrap := true,
      text := "词根词缀：" ++ process_text m },
    { boxLeft := 2, boxTop := 5.4, boxWidth := 12, boxHeight := 3,
      fontSize := 32, alignment := Alignment.left,
      autoSize := AutoSize.textToFitShape, wordWrap := true,
      text := "例句：" ++ process_text e ++ "\n例句释义：" ++ process_text ed } ]
  ++ if wd ≠ "" then
      [ { boxLeft := 2, boxTop := 3, boxWidth := 8, boxHeight := 1.5,
          fontSize := 32, alignment := Alignment.left,
          autoSize := AutoSize.shapeToFitText, wordWrap := false,
          text := "单词释义：" ++ process_text wd } ]
    else []

/-- `generate_slide` on a record holding the six fields produces exactly the
spec-table slide shape (the code's offset arithmetic lands on the table's
literal coordinates). -/
theorem generate_slide_eq (row : Record) (w p m e ed wd : String)
    (h1 : recGet row (some "英文单词") = some w)
    (h2 : recGet row (some "英文音标") = some p)
    (h3 : recGet row (some "词根词缀") = some m)
    (h4 : recGet row (some "例句") = some e)
    (h5 : recGet row (some "例句释义") = some ed)
    (h6 : recGet row (some "单词释义") = some wd) :
    generate_slide row = some (specGeometrySlide w p m e ed wd) := by
  unfold generate_slide specGeometrySlide
  rw [h1, h2, h3, h4, h5, h6]
  simp only [Option.bind_eq_bind, Option.some_bind]
  unfold add_word_textbox add_phonetic_textbox add_morphology_textbox
    add_example_textbox add_word_def_textbox
  norm_num [WORD_FONT_SIZE, PHONETIC_FONT_SIZE, CONTENT_FONT_SIZE]
  split <;> rfl

/-- Inversion: a successfully generated slide determines the six field
reads. -/
theorem generate_slide_some (row : Record) (s : Slide)
    (h : generate_slide row = some s) :
    ∃ w p m e ed wd,
      recGet row (some "英文单词") = some w
      ∧ recGet row (some "英文音标") = some p
      ∧ recGet row (some "词根词缀") = some m
      ∧ recGet row (some "例句") = some e
      ∧ recGet row (some "例句释义") = some ed
      ∧ recGet row (some "单词释义") = some wd
      ∧ s = specGeometrySlide w p m e ed wd := by
  unfold generate_slide at h
  simp only [Option.bind_eq_bind] at h
  rcases Option.bind_eq_some.mp h with ⟨w, h1, h⟩
  rcases Option.bind_eq_some.mp h with ⟨p, h2, h⟩
  rcases Option.bind_eq_some.mp h with ⟨m, h3, h⟩
  rcases Option.bind_eq_some.mp h with ⟨e, h4, h⟩
  rcases Option.bind_eq_some.mp h with ⟨ed, h5, h⟩
  rcases Option.bind_eq_some.mp h with ⟨wd, h6, h⟩
  refine ⟨w, p, m, e, ed, wd, h1, h2, h3, h4, h5, h6, ?_⟩
  have hgen := generate_slide_eq row w p m e ed wd h1 h2 h3 h4 h5 h6
  unfold generate_slide at hgen
  simp only [Option.bind_eq_bind] at hgen
  rw [h1, h2, h3, h4, h5, h6] at hgen
  simp only [Option.some_bind] at hgen h
  rw [h] at hgen
  exact Option.some.inj hgen

/-- A record built from a full-width row under headers containing all six
required columns yields a slide (no `KeyError`). -/
theorem generate_slide_isSome (headers row : List Cell)
    (hlen : row.length = headers.length)
    (hcols : ∀ c ∈ requiredKeys, (some c : Cell) ∈ headers) :
    (generate_slide (mk_row_dict headers row)).isSome := by
  have hkeys := mk_row_dict_keys headers row hlen
  have hget : ∀ c ∈ requiredKeys,
      (recGet (mk_row_dict headers row) (some c)).isSome := by
    intro c hc
    exact recGet_isSome_of_mem _ _ (by rw [hkeys]; exact hcols c hc)
  have hreq : ∀ c, c ∈ requiredKeys → (recGet (mk_row_dict headers row) (some c)).isSome :=
    hget
  obtain ⟨w, h1⟩ := Option.isSome_iff_exists.mp
    (hreq "英文单词" (by simp [requiredKeys, REQUIRED_COLUMNS]))
  obtain ⟨p, h2⟩ := Option.isSome_iff_exists.mp
    (hreq "英文音标" (by simp [requiredKeys, REQUIRED_COLUMNS]))
  obtain ⟨m, h3⟩ := Option.isSome_iff_exists.mp
    (hreq "词根词缀" (by simp [requiredKeys, REQUIRED_COLUMNS]))
  obtain ⟨e, h4⟩ := Option.isSome_iff_exists.mp
    (hreq "例句" (by simp [requiredKeys, REQUIRED_COLUMNS]))
  obtain ⟨ed, h5⟩ := Option.isSome_iff_exists.mp
    (hreq "例句释义" (by simp [requiredKeys, REQUIRED_COLUMNS]))
  obtain ⟨wd, h6⟩ := Option.isSome_iff_exists.mp
    (hreq "单词释义" (by simp [requiredKeys, REQUIRED_COLUMNS]))
  rw [generate_slide_eq _ w p m e ed wd h1 h2 h3 h4 h5 h6]
  rfl

/-! ## Helper lemmas about the deck pipeline -/

theorem buildDeck_eq_some (data : List Record)
    (h : ∀ r ∈ data, (generate_slide r).isSome) :
    ∃ deck, buildDeck data = some deck ∧ deck.length = data.length
      ∧ ∀ k : Nat, deck[k]? = (data[k]?).bind generate_slide := by
  induction data with
  | nil => exact ⟨[], rfl, rfl, by intro k; simp⟩
  | cons r rest ih =>
    obtain ⟨s, hs⟩ := Option.isSome_iff_exists.mp (h r (by simp))
    obtain ⟨deck, hd, hlen, hidx⟩ := ih (fun q hq => h q (by simp [hq]))
    refine ⟨s :: deck, ?_, by simp [hlen], ?_⟩
    · unfold buildDeck
      rw [hs, hd]
    · intro k
      cases k with
      | zero => simp [hs]
      | succ n => simp [hidx n]

/-- When every required column occurs among the header values, the
missing-columns list is empty. -/
theorem missingColumns_eq_nil (headers : List Cell)
    (hcols : ∀ c ∈ requiredKeys, (some c : Cell) ∈ headers) :
    missingColumns headers = [] := by
  unfold missingColumns
  rw [List.filter_eq_nil_iff]
  intro c hc
  simp only [decide_eq_true_eq, Decidable.not_not]
  exact hcols c hc

theorem load_data_ok (sheet : Sheet)
    (hcols : ∀ c ∈ requiredKeys, (some c : Cell) ∈ sheet.headerRow) :
    load_data sheet = Except.ok (sheet.dataRows.map (mk_row_dict sheet.headerRow)) := by
  unfold load_data
  rw [missingColumns_eq_nil sheet.headerRow hcols]
  rfl

theorem load_data_from_sheet_ok (sheet : Sheet)
    (hcols : ∀ c ∈ requiredKeys, (some c : Cell) ∈ sheet.headerRow) :
    load_data_from_sheet sheet
      = Except.ok (sheet.dataRows.map (mk_row_dict sheet.headerRow)) := by
  unfold load_data_from_sheet
  rw [missingColumns_eq_nil sheet.headerRow hcols]
  rfl

/-- The load-then-build pipeline shared by both entry points: with the six
required columns present and full-width rows, loading succeeds and the deck
holds one slide per data row, index for index. -/
theorem deck_pipeline (sheet : Sheet)
    (hfull : RowsFull sheet)
    (hcols : ∀ c ∈ requiredKeys, (some c : Cell) ∈ sheet.headerRow) :
    ∃ deck : List Slide,
      buildDeck (sheet.dataRows.map (mk_row_dict sheet.headerRow)) = some deck
      ∧ deck.length = sheet.dataRows.length
      ∧ ∀ k : Nat, deck[k]? = (sheet.dataRows[k]?).bind
          (fun row => generate_slide (mk_row_dict sheet.headerRow row)) := by
  have hall : ∀ r ∈ sheet.dataRows.map (mk_row_dict sheet.headerRow),
      (generate_slide r).isSome := by
    intro r hr
    rcases List.mem_map.mp hr with ⟨row, hrow, rfl⟩
    exact generate_slide_isSome sheet.headerRow row (hfull row hrow) hcols
  obtain ⟨deck, hd, hlen, hidx⟩ := buildDeck_eq_some _ hall
  refine ⟨deck, hd, by rw [hlen, List.length_map], ?_⟩
  intro k
  rw [hidx k, List.getElem?_map]
  cases sheet.dataRows[k]? <;> simp

/-! ## Claim C1: one slide per data row, in row order -/

/-- C1: for every spreadsheet whose header row contains the six required
columns (rows padded to header width, as openpyxl yields them), the batch
entry point builds and saves exactly one slide per data row, returns the row
count, and slide `k` is generated from record `k` (the record of row `k`),
index for index. -/
theorem generate_ppt_slide_per_row (sheet : Sheet)
    (hfull : RowsFull sheet)
    (hcols : ∀ c ∈ requiredKeys, (some c : Cell) ∈ sheet.headerRow) :
    ∃ deck : List Slide,
      generate_ppt true sheet = BatchResult.finished (some deck) sheet.dataRows.length
      ∧ deck.length = sheet.dataRows.length
      ∧ ∀ k : Nat, deck[k]? = (sheet.dataRows[k]?).bind
          (fun row => generate_slide (mk_row_dict sheet.headerRow row)) := by
  obtain ⟨deck, hd, hlen, hidx⟩ := deck_pipeline sheet hfull hcols
  refine ⟨deck, ?_, hlen, hidx⟩
  unfold generate_ppt
  rw [load_data_ok sheet hcols]
  simp only
  rw [hd]
  simp [List.length_map]

/-- Witness for C1: a concrete two-row sheet. -/
def exSheet : Sheet :=
  { headerRow := [some "英文单词", some "英文音标", some "词根词缀",
      some "例句", some "例句释义", some "单词释义"],
    dataRows :=
      [[some "apple", some "/1/", some "a-pple", some "I eat an apple.",
          some "我吃苹果。", some "苹果"],
       [some "banana", Option.none, some "ban-ana", some "Bananas are yellow.",
          some "香蕉是黄色的。", Option.none]] }

theorem generate_ppt_slide_per_row_witness :
    (RowsFull exSheet ∧ ∀ c ∈ requiredKeys, (some c : Cell) ∈ exSheet.headerRow)
    ∧ ∃ deck : List Slide,
        generate_ppt true exSheet
          = BatchResult.finished (some deck) exSheet.dataRows.length
        ∧ deck.length = exSheet.dataRows.length
        ∧ ∀ k : Nat, deck[k]? = (exSheet.dataRows[k]?).bind
            (fun row => generate_slide (mk_row_dict exSheet.headerRow row)) :=
  ⟨⟨by decide, by decide⟩,
    generate_ppt_slide_per_row exSheet (by decide) (by decide)⟩

/-! ## Claim C2: missing required columns abort the run -/

/-- C2: if any required column name is absent from the header row, both
loaders fail with the list of exactly the absent required columns (membership
is order-independent), both entry points stop at that failure — no record is
processed, no slide is built — and nothing is written to the output path. -/
theorem load_missing_columns_aborts (sheet : Sheet) (c : String) (saveOk : Bool)
    (hc : c ∈ requiredKeys) (habs : (some c : Cell) ∉ sheet.headerRow) :
    ∃ missing : List String,
      missing ≠ []
      ∧ (∀ x, x ∈ missing ↔ (x ∈ requiredKeys ∧ (some x : Cell) ∉ sheet.headerRow))
      ∧ load_data sheet = Except.error missing
      ∧ load_data_from_sheet sheet = Except.error missing
      ∧ generate_ppt saveOk sheet = BatchResult.loadFailure missing
      ∧ (generate_ppt saveOk sheet).savedDeck = Option.none
      ∧ generate_ppt_from_sheet saveOk sheet = SheetResult.loadFailure missing := by
  have hne : missingColumns sheet.headerRow ≠ [] := by
    intro hnil
    have : c ∈ missingColumns sheet.headerRow := by
      unfold missingColumns
      rw [List.mem_filter]
      exact ⟨hc, by simpa using habs⟩
    rw [hnil] at this
    simp at this
  have hload : load_data sheet = Except.error (missingColumns sheet.headerRow) := by
    unfold load_data
    rw [if_neg hne]
  have hload' : load_data_from_sheet sheet
      = Except.error (missingColumns sheet.headerRow) := by
    unfold load_data_from_sheet
    rw [if_neg hne]
  refine ⟨missingColumns sheet.headerRow, hne, ?_, hload, hload', ?_, ?_, ?_⟩
  · intro x
    unfold missingColumns
    rw [List.mem_filter]
    simp [requiredKeys]
  · unfold generate_ppt
    rw [hload]
  · unfold generate_ppt BatchResult.savedDeck
    rw [hload]
  · unfold generate_ppt_from_sheet
    rw [hload']

/-- Witness for C2: a concrete sheet whose header lacks `单词释义`. -/
def exSheetMissing : Sheet :=
  { headerRow := [some "英文单词", some "英文音标", some "词根词缀",
      some "例句", some "例句释义"],
    dataRows := [[some "apple", some "/1/", some "a-pple", some "s", some "t"]] }

theorem load_missing_columns_aborts_witness :
    ("单词释义" ∈ requiredKeys
      ∧ (some "单词释义" : Cell) ∉ exSheetMissing.headerRow)
    ∧ ∃ missing : List String,
        missing ≠ []
        ∧ (∀ x, x ∈ missing
            ↔ (x ∈ requiredKeys ∧ (some x : Cell) ∉ exSheetMissing.headerRow))
        ∧ load_data exSheetMissing = Except.error missing
        ∧ load_data_from_sheet exSheetMissing = Except.error missing
        ∧ generate_ppt true exSheetMissing = BatchResult.loadFailure missing
        ∧ (generate_ppt true exSheetMissing).savedDeck = Option.none
        ∧ generate_ppt_from_sheet true exSheetMissing
            = SheetResult.loadFailure missing :=
  ⟨⟨by decide, by decide⟩,
    load_missing_columns_aborts exSheetMissing "单词释义" true (by decide) (by decide)⟩

/-! ## Region predicates: a text box identified by its spec-table rectangle -/

def isWordRegion (b : TextBox) : Bool :=
  decide (b.boxLeft = 4 ∧ b.boxTop = 1 ∧ b.boxWidth = 8 ∧ b.boxHeight = 2)

def isPhoneticRegion (b : TextBox) : Bool :=
  decide (b.boxLeft = 7 ∧ b.boxTop = 2.4 ∧ b.boxWidth = 2 ∧ b.boxHeight = 1)

def isDefRegion (b : TextBox) : Bool :=
  decide (b.boxLeft = 2 ∧ b.boxTop = 3 ∧ b.boxWidth = 8 ∧ b.boxHeight = 1.5)

def isMorphRegion (b : TextBox) : Bool :=
  decide (b.boxLeft = 2 ∧ b.boxTop = 4 ∧ b.boxWidth = 12 ∧ b.boxHeight = 2)

def isExampleRegion (b : TextBox) : Bool :=
  decide (b.boxLeft = 2 ∧ b.boxTop = 5.4 ∧ b.boxWidth = 12 ∧ b.boxHeight = 3)

theorem specSlide_any_def (w p m e ed wd : String) :
    (specGeometrySlide w p m e ed wd).any isDefRegion = decide (wd ≠ "") := by
  unfold specGeometrySlide
  rcases eq_or_ne wd "" with hq | hq
  · rw [if_neg (by simp [hq]), decide_eq_false (by simp [hq])]
    norm_num [isWordRegion, isPhoneticRegion, isDefRegion, isMorphRegion, isExampleRegion, List.filter_cons]
  · rw [if_pos hq, decide_eq_true hq]
    norm_num [isWordRegion, isPhoneticRegion, isDefRegion, isMorphRegion, isExampleRegion, List.filter_cons]

theorem specSlide_any_word (w p m e ed wd : String) :
    (specGeometrySlide w p m e ed wd).any isWordRegion = true := by
  unfold specGeometrySlide
  rcases eq_or_ne wd "" with hq | hq
  · rw [if_neg (by simp [hq])]
    norm_num [isWordRegion, isPhoneticRegion, isDefRegion, isMorphRegion, isExampleRegion, List.filter_cons]
  · rw [if_pos hq]
    norm_num [isWordRegion, isPhoneticRegion, isDefRegion, isMorphRegion, isExampleRegion, List.filter_cons]

theorem specSlide_any_phonetic (w p m e ed wd : String) :
    (specGeometrySlide w p m e ed wd).any isPhoneticRegion = true := by
  unfold specGeometrySlide
  rcases eq_or_ne wd "" with hq | hq
  · rw [if_neg (by simp [hq])]
    norm_num [isWordRegion, isPhoneticRegion, isDefRegion, isMorphRegion, isExampleRegion, List.filter_cons]
  · rw [if_pos hq]
    norm_num [isWordRegion, isPhoneticRegion, isDefRegion, isMorphRegion, isExampleRegion, List.filter_cons]

theorem specSlide_any_morph (w p m e ed wd : String) :
    (specGeometrySlide w p m e ed wd).any isMorphRegion = true := by
  unfold specGeometrySlide
  rcases eq_or_ne wd "" with hq | hq
  · rw [if_neg (by simp [hq])]
    norm_num [isWordRegion, isPhoneticRegion, isDefRegion, isMorphRegion, isExampleRegion, List.filter_cons]
  · rw [if_pos hq]
    norm_num [isWordRegion, isPhoneticRegion, isDefRegion, isMorphRegion, isExampleRegion, List.filter_cons]

theorem specSlide_any_example (w p m e ed wd : String) :
    (specGeometrySlide w p m e ed wd).any isExampleRegion = true := by
  unfold specGeometrySlide
  rcases eq_or_ne wd "" with hq | hq
  · rw [if_neg (by simp [hq])]
    norm_num [isWordRegion, isPhoneticRegion, isDefRegion, isMorphRegion, isExampleRegion, List.filter_cons]
  · rw [if_pos hq]
    norm_num [isWordRegion, isPhoneticRegion, isDefRegion, isMorphRegion, isExampleRegion, List.filter_cons]

theorem specSlide_length (w p m e ed wd : String) :
    (specGeometrySlide w p m e ed wd).length = if wd = "" then 4 else 5 := by
  unfold specGeometrySlide
  rcases eq_or_ne wd "" with hq | hq
  · rw [if_neg (by simp [hq]), if_pos hq]
    simp
  · rw [if_pos hq, if_neg hq]
    simp

theorem specSlide_filter_morph (w p m e ed wd : String) :
    ((specGeometrySlide w p m e ed wd).filter isMorphRegion).map TextBox.text
      = ["词根词缀：" ++ process_text m] := by
  unfold specGeometrySlide
  rcases eq_or_ne wd "" with hq | hq
  · rw [if_neg (by simp [hq])]
    norm_num [isWordRegion, isPhoneticRegion, isDefRegion, isMorphRegion, isExampleRegion, List.filter_cons]
  · rw [if_pos hq]
    norm_num [isWordRegion, isPhoneticRegion, isDefRegion, isMorphRegion, isExampleRegion, List.filter_cons]

theorem specSlide_filter_example (w p m e ed wd : String) :
    ((specGeometrySlide w p m e ed wd).filter isExampleRegion).map TextBox.text
      = ["例句：" ++ process_text e ++ "\n例句释义：" ++ process_text ed] := by
  unfold specGeometrySlide
  rcases eq_or_ne wd "" with hq | hq
  · rw [if_neg (by simp [hq])]
    norm_num [isWordRegion, isPhoneticRegion, isDefRegion, isMorphRegion, isExampleRegion, List.filter_cons]
  · rw [if_pos hq]
    norm_num [isWordRegion, isPhoneticRegion, isDefRegion, isMorphRegion, isExampleRegion, List.filter_cons]

theorem specSlide_filter_def (w p m e ed wd : String) (hq : wd ≠ "") :
    ((specGeometrySlide w p m e ed wd).filter isDefRegion).map TextBox.text
      = ["单词释义：" ++ process_text wd] := by
  unfold specGeometrySlide
  rw [if_pos hq]
  norm_num [isWordRegion, isPhoneticRegion, isDefRegion, isMorphRegion, isExampleRegion, List.filter_cons]

/-! ## Claim C5: the definition region is the only conditional element -/

/-- C5: for every record, the generated slide contains the definition region
(rectangle (2, 3, 8, 1.5)) iff the `单词释义` field is non-empty; the word,
phonetic, morphology, and example regions are present for every record
(presence independent of content), and the slide has exactly 4 boxes without
the definition region and exactly 5 with it. -/
theorem slide_def_region_iff_nonempty (row : Record) (s : Slide) (wd : String)
    (h : generate_slide row = some s)
    (hwd : recGet row (some "单词释义") = some wd) :
    (s.any isDefRegion = true ↔ wd ≠ "")
    ∧ s.any isWordRegion = true
    ∧ s.any isPhoneticRegion = true
    ∧ s.any isMorphRegion = true
    ∧ s.any isExampleRegion = true
    ∧ (wd = "" → s.length = 4)
    ∧ (wd ≠ "" → s.length = 5) := by
  obtain ⟨w, p, m, e, ed, wd', _, _, _, _, _, h6, hs⟩ := generate_slide_some row s h
  have hwd' : wd' = wd := Option.some.inj (h6.symm.trans hwd)
  subst hwd'
  subst hs
  refine ⟨?_, specSlide_any_word w p m e ed wd', specSlide_any_phonetic w p m e ed wd',
    specSlide_any_morph w p m e ed wd', specSlide_any_example w p m e ed wd', ?_, ?_⟩
  · rw [specSlide_any_def]
    simp
  · intro hq
    rw [specSlide_length, if_pos hq]
  · intro hq
    rw [specSlide_length, if_neg hq]

/-- A concrete record, as `load_data` would build it from the template's
first sample row. -/
def exRecord : Record :=
  [(some "英文单词", "apple"), (some "英文音标", "/1/"), (some "词根词缀", "a-pple"),
   (some "例句", "I eat an apple."), (some "例句释义", "我吃苹果。"),
   (some "单词释义", "苹果")]

/-- The slide generated from `exRecord`. -/
def exRecordSlide : Slide := (generate_slide exRecord).getD []

theorem slide_def_region_iff_nonempty_witness :
    (generate_slide exRecord = some exRecordSlide
      ∧ recGet exRecord (some "单词释义") = some "苹果")
    ∧ ((exRecordSlide.any isDefRegion = true ↔ "苹果" ≠ "")
      ∧ exRecordSlide.any isWordRegion = true
      ∧ exRecordSlide.any isPhoneticRegion = true
      ∧ exRecordSlide.any isMorphRegion = true
      ∧ exRecordSlide.any isExampleRegion = true
      ∧ ("苹果" = "" → exRecordSlide.length = 4)
      ∧ ("苹果" ≠ "" → exRecordSlide.length = 5)) :=
  ⟨⟨rfl, rfl⟩, slide_def_region_iff_nonempty exRecord exRecordSlide "苹果" rfl rfl⟩

/-! ## Claim C7: fixed slide geometry -/

/-- C7: every generated slide consists exactly of the spec table's regions:
word at (4, 1, 8, 2) in 72 pt centered, phonetic at (7, 2.4, 2, 1) in 32 pt
centered, morphology at (2, 4, 12, 2) in 32 pt left-aligned, example plus
translation at (2, 5.4, 12, 3) in 32 pt left-aligned with the two wrapped
sub-fields joined as two labeled lines, and the conditional definition at
(2, 3, 8, 1.5) in 32 pt left-aligned — `specGeometrySlide` spells out those
literal rectangles, sizes, alignments, and texts. -/
theorem slide_fixed_geometry (row : Record) (s : Slide)
    (h : generate_slide row = some s) :
    ∃ w p m e ed wd,
      recGet row (some "英文单词") = some w
      ∧ recGet row (some "英文音标") = some p
      ∧ recGet row (some "词根词缀") = some m
      ∧ recGet row (some "例句") = some e
      ∧ recGet row (some "例句释义") = some ed
      ∧ recGet row (some "单词释义") = some wd
      ∧ s = specGeometrySlide w p m e ed wd :=
  generate_slide_some row s h

theorem slide_fixed_geometry_witness :
    generate_slide exRecord = some exRecordSlide
    ∧ ∃ w p m e ed wd,
        recGet exRecord (some "英文单词") = some w
        ∧ recGet exRecord (some "英文音标") = some p
        ∧ recGet exRecord (some "词根词缀") = some m
        ∧ recGet exRecord (some "例句") = some e
        ∧ recGet exRecord (some "例句释义") = some ed
        ∧ recGet exRecord (some "单词释义") = some wd
        ∧ exRecordSlide = specGeometrySlide w p m e ed wd :=
  ⟨rfl, slide_fixed_geometry exRecord exRecordSlide rfl⟩

/-! ## Claim C9: labels are prepended after wrapping -/

/-- C9: for the morphology, example, example-translation, and definition
regions, the text set on the slide is the label concatenated with
`process_text` of the raw field value — the wrap decision sees only the
field, so the label's characters never count toward the threshold (and any
field at or below the threshold stays unwrapped even though label + field may
exceed it). -/
theorem labels_prepended_after_wrap (row : Record) (s : Slide)
    (m e ed wd : String)
    (h : generate_slide row = some s)
    (hm : recGet row (some "词根词缀") = some m)
    (he : recGet row (some "例句") = some e)
    (hed : recGet row (some "例句释义") = some ed)
    (hwd : recGet row (some "单词释义") = some wd) :
    ((s.filter isMorphRegion).map TextBox.text = ["词根词缀：" ++ process_text m])
    ∧ ((s.filter isExampleRegion).map TextBox.text
        = ["例句：" ++ process_text e ++ "\n例句释义：" ++ process_text ed])
    ∧ (wd ≠ "" → (s.filter isDefRegion).map TextBox.text
        = ["单词释义：" ++ process_text wd])
    ∧ ∀ f : String, f.length ≤ TEXT_WRAP_THRESHOLD → process_text f = f := by
  obtain ⟨w', p', m', e', ed', wd', _, _, h3, h4, h5, h6, hs⟩ :=
    generate_slide_some row s h
  have hm' : m' = m := Option.some.inj (h3.symm.trans hm)
  subst hm'
  have he' : e' = e := Option.some.inj (h4.symm.trans he)
  subst he'
  have hed' : ed' = ed := Option.some.inj (h5.symm.trans hed)
  subst hed'
  have hwd' : wd' = wd := Option.some.inj (h6.symm.trans hwd)
  subst hwd'
  subst hs
  refine ⟨specSlide_filter_morph w' p' m' e' ed' wd',
    specSlide_filter_example w' p' m' e' ed' wd',
    fun hq => specSlide_filter_def w' p' m' e' ed' wd' hq,
    fun f hf => ?_⟩
  unfold process_text
  rw [if_pos hf]

theorem labels_prepended_after_wrap_witness :
    (generate_slide exRecord = some exRecordSlide
      ∧ recGet exRecord (some "词根词缀") = some "a-pple"
      ∧ recGet exRecord (some "例句") = some "I eat an apple."
      ∧ recGet exRecord (some "例句释义") = some "我吃苹果。"
      ∧ recGet exRecord (some "单词释义") = some "苹果")
    ∧ (((exRecordSlide.filter isMorphRegion).map TextBox.text
          = ["词根词缀：" ++ process_text "a-pple"])
      ∧ ((exRecordSlide.filter isExampleRegion).map TextBox.text
          = ["例句：" ++ process_text "I eat an apple."
              ++ "\n例句释义：" ++ process_text "我吃苹果。"])
      ∧ ("苹果" ≠ "" → (exRecordSlide.filter isDefRegion).map TextBox.text
          = ["单词释义：" ++ process_text "苹果"])
      ∧ ∀ f : String, f.length ≤ TEXT_WRAP_THRESHOLD → process_text f = f) :=
  ⟨⟨rfl, rfl, rfl, rfl, rfl⟩,
    labels_prepended_after_wrap exRecord exRecordSlide
      "a-pple" "I eat an apple." "我吃苹果。" "苹果" rfl rfl rfl rfl rfl⟩

/-! ## Claim C8: records zip headers to cells, empty cells become "" -/

/-- C8: a successful load materializes one record per data row by pairing
header names positionally with the row's cells, coercing a `None` cell to the
empty string and any other cell to its string representation; hence under
duplicate-free headers the value stored for the i-th header is exactly the
coercion of the i-th cell — an empty cell yields the value `""`, never an
absent key. -/
theorem loader_zips_headers_to_cells (sheet : Sheet) (recs : List Record)
    (hnodup : sheet.headerRow.Nodup)
    (hok : load_data sheet = Except.ok recs) :
    recs = sheet.dataRows.map (mk_row_dict sheet.headerRow)
    ∧ cellToStr Option.none = ""
    ∧ (∀ str : String, cellToStr (some str) = str)
    ∧ ∀ row ∈ sheet.dataRows, ∀ i (hi : i < sheet.headerRow.length)
        (hi' : i < row.length),
        recGet (mk_row_dict sheet.headerRow row) (sheet.headerRow.get ⟨i, hi⟩)
          = some (cellToStr (row.get ⟨i, hi'⟩)) := by
  refine ⟨?_, rfl, fun str => rfl, ?_⟩
  · unfold load_data at hok
    dsimp only at hok
    split at hok
    · exact (Except.ok.inj hok).symm
    · exact absurd hok (by simp)
  · intro row _ i hi hi'
    exact mk_row_dict_get sheet.headerRow row hnodup i hi hi'

theorem loader_zips_headers_to_cells_witness :
    (exSheet.headerRow.Nodup
      ∧ load_data exSheet
          = Except.ok (exSheet.dataRows.map (mk_row_dict exSheet.headerRow)))
    ∧ (exSheet.dataRows.map (mk_row_dict exSheet.headerRow)
          = exSheet.dataRows.map (mk_row_dict exSheet.headerRow)
      ∧ cellToStr Option.none = ""
      ∧ (∀ str : String, cellToStr (some str) = str)
      ∧ ∀ row ∈ exSheet.dataRows, ∀ i (hi : i < exSheet.headerRow.length)
          (hi' : i < row.length),
          recGet (mk_row_dict exSheet.headerRow row) (exSheet.headerRow.get ⟨i, hi⟩)
            = some (cellToStr (row.get ⟨i, hi'⟩))) :=
  ⟨⟨by decide, rfl⟩,
    loader_zips_headers_to_cells exSheet
      (exSheet.dataRows.map (mk_row_dict exSheet.headerRow)) (by decide) rfl⟩

/-! ## Claim C6 (corrected): save-failure behavior of the two entry points -/

/-- Counterexample to C6 as stated: on a well-formed one-row sheet whose save
fails, the batch entry point `generate_ppt` does NOT fail with a save error —
it catches the exception and returns 0 normally (writing nothing), while only
the sheet-selecting entry point raises. -/
theorem generate_ppt_swallows_save_failure :
    generate_ppt false exSheet = BatchResult.finished Option.none 0
    ∧ (generate_ppt false exSheet).retVal = some 0
    ∧ generate_ppt_from_sheet false exSheet = SheetResult.saveError := by
  refine ⟨rfl, rfl, rfl⟩

/-- C6 as amended: both entry points return the count of slides built when
saving succeeds; when final serialization fails, `generate_ppt_from_sheet`
fails with a save error, but `generate_ppt` catches the failure and returns 0
without failing. -/
theorem save_failure_behavior (sheet : Sheet)
    (hfull : RowsFull sheet)
    (hcols : ∀ c ∈ requiredKeys, (some c : Cell) ∈ sheet.headerRow) :
    (∃ deck, generate_ppt true sheet
        = BatchResult.finished (some deck) sheet.dataRows.length
      ∧ generate_ppt_from_sheet true sheet
        = SheetResult.finished deck sheet.dataRows.length)
    ∧ generate_ppt false sheet = BatchResult.finished Option.none 0
    ∧ generate_ppt_from_sheet false sheet = SheetResult.saveError := by
  obtain ⟨deck, hd, hlen, _⟩ := deck_pipeline sheet hfull hcols
  refine ⟨⟨deck, ?_, ?_⟩, ?_, ?_⟩
  · unfold generate_ppt
    rw [load_data_ok sheet hcols]
    simp only
    rw [hd]
    simp [List.length_map]
  · unfold generate_ppt_from_sheet
    rw [load_data_from_sheet_ok sheet hcols]
    simp only
    rw [hd]
    simp [List.length_map]
  · unfold generate_ppt
    rw [load_data_ok sheet hcols]
    simp only
    rw [hd]
    simp
  · unfold generate_ppt_from_sheet
    rw [load_data_from_sheet_ok sheet hcols]
    simp only
    rw [hd]
    simp

theorem save_failure_behavior_witness :
    (RowsFull exSheet ∧ ∀ c ∈ requiredKeys, (some c : Cell) ∈ exSheet.headerRow)
    ∧ ((∃ deck, generate_ppt true exSheet
          = BatchResult.finished (some deck) exSheet.dataRows.length
        ∧ generate_ppt_from_sheet true exSheet
          = SheetResult.finished deck exSheet.dataRows.length)
      ∧ generate_ppt false exSheet = BatchResult.finished Option.none 0
      ∧ generate_ppt_from_sheet false exSheet = SheetResult.saveError) :=
  ⟨⟨by decide, by decide⟩, save_failure_behavior exSheet (by decide) (by decide)⟩

/-! ## Claim C10: an empty sheet yields a saved empty deck and return 0 -/

/-- A concrete sheet with the six required columns and no data rows. -/
def exSheetEmpty : Sheet :=
  { headerRow := [some "英文单词", some "英文音标", some "词根词缀",
      some "例句", some "例句释义", some "单词释义"],
    dataRows := [] }

/-- C10: on a sheet with all required columns and no data rows, the batch
entry point does not fail — it saves an empty deck and returns 0; and on any
well-formed sheet whose save fails, it also returns 0, so the two outcomes
are indistinguishable by return value alone. -/
theorem empty_sheet_returns_zero (sheet : Sheet)
    (hcols : ∀ c ∈ requiredKeys, (some c : Cell) ∈ sheet.headerRow)
    (hempty : sheet.dataRows = []) :
    generate_ppt true sheet = BatchResult.finished (some []) 0
    ∧ (generate_ppt true sheet).retVal = some 0
    ∧ ∀ sheet2 : Sheet, RowsFull sheet2 →
        (∀ c ∈ requiredKeys, (some c : Cell) ∈ sheet2.headerRow) →
        (generate_ppt false sheet2).retVal = some 0 := by
  have h1 : generate_ppt true sheet = BatchResult.finished (some []) 0 := by
    unfold generate_ppt
    rw [load_data_ok sheet hcols, hempty]
    rfl
  refine ⟨h1, by rw [h1]; rfl, ?_⟩
  intro sheet2 hfull2 hcols2
  obtain ⟨deck, hd, _, _⟩ := deck_pipeline sheet2 hfull2 hcols2
  unfold generate_ppt
  rw [load_data_ok sheet2 hcols2]
  simp only
  rw [hd]
  rfl

theorem empty_sheet_returns_zero_witness :
    ((∀ c ∈ requiredKeys, (some c : Cell) ∈ exSheetEmpty.headerRow)
      ∧ exSheetEmpty.dataRows = [])
    ∧ (generate_ppt true exSheetEmpty = BatchResult.finished (some []) 0
      ∧ (generate_ppt true exSheetEmpty).retVal = some 0
      ∧ ∀ sheet2 : Sheet, RowsFull sheet2 →
          (∀ c ∈ requiredKeys, (some c : Cell) ∈ sheet2.headerRow) →
          (generate_ppt false sheet2).retVal = some 0) :=
  ⟨⟨by decide, rfl⟩, empty_sheet_returns_zero exSheetEmpty (by decide) rfl⟩

end VocabPPT
